import Mathlib

/-
Verification of the hotel reservation system (reservation_system.py).

Shallow embedding: JSON scalar values are modelled by `JVal`, raw records
(Python dicts decoded from JSON) by association lists, the backing file of a
collection by `RawFile` (absent / unparsable / wrong top-level shape / a list
of records).  The three entity dataclasses and their `from_dict` / `to_dict`
methods, the `DataStore` load and save paths, and the `ReservationSystem`
service operations are translated directly.  The service state is the triple
of the three loaded collections; each operation returns its result, the state
after the operation, and a flag recording whether a save was performed.
Python `raise` versus `return None` is kept observable via `CreateOutcome`,
and the distinct error exits of the delete operations via `DeleteOutcome`.
Freshly generated uuid4 identifiers are passed in as explicit parameters.
-/

/-- A JSON scalar value as it can appear as a field of a decoded record. -/
inductive JVal where
  | jnull : JVal
  | jbool : Bool → JVal
  | jint : Int → JVal
  | jstr : String → JVal
deriving DecidableEq, Repr

/-- A raw record: a Python dict decoded from JSON, as an association list. -/
abbrev RawRecord := List (String × JVal)

/-- Python str() applied to a decoded JSON scalar; it never fails. -/
def pyStr : JVal → String
  | .jnull => "None"
  | .jbool true => "True"
  | .jbool false => "False"
  | .jint n => toString n
  | .jstr s => s

/-- Value of a non-empty run of decimal digits; None on any other
character or on the empty run. -/
def digitsVal (cs : List Char) : Option Nat :=
  match cs with
  | [] => none
  | _ =>
    if cs.all Char.isDigit then
      some (cs.foldl (fun a c => a * 10 + (c.toNat - 48)) 0)
    else none

/-- Python int() on a string: an optional sign followed by decimal digits
(the forms the stored records use); every other string raises ValueError,
modelled as None. -/
def pyIntOfString (s : String) : Option Int :=
  match s.toList with
  | '-' :: rest => (digitsVal rest).map (fun n => -(n : Int))
  | '+' :: rest => (digitsVal rest).map (fun n => (n : Int))
  | cs => (digitsVal cs).map (fun n => (n : Int))

/-- Python int() applied to a decoded JSON scalar; None on TypeError or
ValueError (null is not coercible, a string must be a decimal literal). -/
def pyInt : JVal → Option Int
  | .jnull => none
  | .jbool true => some 1
  | .jbool false => some 0
  | .jint n => some n
  | .jstr s => pyIntOfString s

/-- Hotel dataclass: hotel_id, name, city, total_rooms. -/
structure Hotel where
  hotel_id : String
  name : String
  city : String
  total_rooms : Int
deriving DecidableEq, Repr

/-- Customer dataclass: customer_id, name, email. -/
structure Customer where
  customer_id : String
  name : String
  email : String
deriving DecidableEq, Repr

/-- Reservation dataclass: reservation_id, hotel_id, customer_id, rooms,
status (default "active" is applied in from_dict). -/
structure Reservation where
  reservation_id : String
  hotel_id : String
  customer_id : String
  rooms : Int
  status : String
deriving DecidableEq, Repr

/-- Hotel.to_dict: asdict in dataclass field order. -/
def Hotel.toDict (h : Hotel) : RawRecord :=
  [("hotel_id", .jstr h.hotel_id), ("name", .jstr h.name),
   ("city", .jstr h.city), ("total_rooms", .jint h.total_rooms)]

/-- Hotel.from_dict: builds a Hotel from a raw record, None on a missing
key (KeyError) or a failing int() coercion (TypeError/ValueError). -/
def Hotel.fromDict (data : RawRecord) : Option Hotel :=
  match data.lookup "hotel_id", data.lookup "name",
        data.lookup "city", data.lookup "total_rooms" with
  | some hid, some nm, some ct, some tr =>
    match pyInt tr with
    | some n => some ⟨pyStr hid, pyStr nm, pyStr ct, n⟩
    | none => none
  | _, _, _, _ => none

/-- Customer.to_dict: asdict in dataclass field order. -/
def Customer.toDict (c : Customer) : RawRecord :=
  [("customer_id", .jstr c.customer_id), ("name", .jstr c.name),
   ("email", .jstr c.email)]

/-- Customer.from_dict: builds a Customer from a raw record, None on a
missing key. -/
def Customer.fromDict (data : RawRecord) : Option Customer :=
  match data.lookup "customer_id", data.lookup "name",
        data.lookup "email" with
  | some cid, some nm, some em => some ⟨pyStr cid, pyStr nm, pyStr em⟩
  | _, _, _ => none

/-- Reservation.to_dict: asdict in dataclass field order. -/
def Reservation.toDict (r : Reservation) : RawRecord :=
  [("reservation_id", .jstr r.reservation_id), ("hotel_id", .jstr r.hotel_id),
   ("customer_id", .jstr r.customer_id), ("rooms", .jint r.rooms),
   ("status", .jstr r.status)]

/-- Reservation.from_dict: builds a Reservation from a raw record; the
status key defaults to "active" when missing (data.get), any status string
is accepted; None on a missing required key or failing int() coercion. -/
def Reservation.fromDict (data : RawRecord) : Option Reservation :=
  match data.lookup "reservation_id", data.lookup "hotel_id",
        data.lookup "customer_id", data.lookup "rooms" with
  | some rid, some hid, some cid, some rms =>
    match pyInt rms with
    | some n =>
      some ⟨pyStr rid, pyStr hid, pyStr cid, n,
            match data.lookup "status" with
            | some v => pyStr v
            | none => "active"⟩
    | none => none
  | _, _, _, _ => none

/-- The state of the backing file of one collection, after the file-system
check and the JSON parse of DataStore._load_raw: the file is absent, its
text fails to parse (json.JSONDecodeError), it parses but the top level is
not an array, or it is an array of records. -/
inductive RawFile where
  | absent : RawFile
  | invalidJson : RawFile
  | nonList : RawFile
  | list : List RawRecord → RawFile
deriving DecidableEq, Repr

/-- DataStore._load_raw: an empty list for an absent file, a parse failure
or a non-array top level (each case only logged); otherwise the rows. -/
def DataStore.load_raw : RawFile → List RawRecord
  | .absent => []
  | .invalidJson => []
  | .nonList => []
  | .list rows => rows

/-- DataStore.load_hotels: per-row Hotel.from_dict, skipping rows that
yield None. -/
def DataStore.load_hotels (file : RawFile) : List Hotel :=
  (DataStore.load_raw file).filterMap Hotel.fromDict

/-- DataStore.load_customers: per-row Customer.from_dict, skipping Nones. -/
def DataStore.load_customers (file : RawFile) : List Customer :=
  (DataStore.load_raw file).filterMap Customer.fromDict

/-- DataStore.load_reservations: per-row Reservation.from_dict, skipping
Nones. -/
def DataStore.load_reservations (file : RawFile) : List Reservation :=
  (DataStore.load_raw file).filterMap Reservation.fromDict

/-- One hex digit, lower case, as json.dumps emits in escapes. -/
def hexDigit (n : Nat) : Char :=
  if n < 10 then Char.ofNat (48 + n) else Char.ofNat (87 + n)

/-- Escaping of one character inside a JSON string literal as json.dumps
with ensure_ascii=False performs it: the two mandatory escapes, the short
escapes for the common control characters, a uXXXX escape for the other
control characters, every other character kept as is. -/
def jsonEscapeChar (c : Char) : String :=
  if c = '\\' then "\\\\"
  else if c = '"' then "\\\""
  else if c = '\n' then "\\n"
  else if c = '\t' then "\\t"
  else if c = '\r' then "\\r"
  else if c = '\x08' then "\\b"
  else if c = '\x0c' then "\\f"
  else if c.toNat < 32 then
    "\\u00" ++ String.mk [hexDigit (c.toNat / 16), hexDigit (c.toNat % 16)]
  else String.mk [c]

/-- Escaping of a whole string for a JSON string literal. -/
def jsonEscape (s : String) : String :=
  String.join (s.toList.map jsonEscapeChar)

/-- Serialization of one scalar value as json.dumps renders it. -/
def JVal.render : JVal → String
  | .jnull => "null"
  | .jbool true => "true"
  | .jbool false => "false"
  | .jint n => toString n
  | .jstr s => "\"" ++ jsonEscape s ++ "\""

/-- Serialization of one record at depth 1 of the array, as json.dumps with
indent=2 renders a dict: keys in insertion order (asdict keeps dataclass
field order, so the key order is deterministic). -/
def renderRecord (r : RawRecord) : String :=
  match r with
  | [] => "\x7b\x7d"
  | _ =>
    "\x7b\n" ++
    String.intercalate ",\n"
      (r.map (fun p => "    \"" ++ jsonEscape p.1 ++ "\": " ++ p.2.render)) ++
    "\n  \x7d"

/-- DataStore._save_raw: the exact text written to the backing file,
json.dumps(rows, ensure_ascii=False, indent=2) plus the empty string. -/
def DataStore.save_raw (rows : List RawRecord) : String :=
  (match rows with
   | [] => "[]"
   | _ =>
     "[\n" ++
     String.intercalate ",\n" (rows.map (fun r => "  " ++ renderRecord r)) ++
     "\n]") ++ ""

/-- DataStore.save_hotels: serialize to_dict of each hotel. -/
def DataStore.save_hotels (hotels : List Hotel) : String :=
  DataStore.save_raw (hotels.map Hotel.toDict)

/-- DataStore.save_customers: serialize to_dict of each customer. -/
def DataStore.save_customers (customers : List Customer) : String :=
  DataStore.save_raw (customers.map Customer.toDict)

/-- DataStore.save_reservations: serialize to_dict of each reservation. -/
def DataStore.save_reservations (reservations : List Reservation) : String :=
  DataStore.save_raw (reservations.map Reservation.toDict)

/-- The three collections as _load_all returns them and _save_all persists
them. -/
structure SysState where
  hotels : List Hotel
  customers : List Customer
  reservations : List Reservation
deriving DecidableEq, Repr

/-- What a create operation does at its exit: propagate an exception
(Python raise) or return a value to the caller (None modelled as none). -/
inductive CreateOutcome (α : Type) where
  | raised : String → CreateOutcome α
  | returned : Option α → CreateOutcome α
deriving DecidableEq, Repr

/-- True iff the outcome is a propagated exception. -/
def CreateOutcome.isRaised {α : Type} : CreateOutcome α → Bool
  | .raised _ => true
  | .returned _ => false

/-- The three exits of delete_hotel / delete_customer, in the order the
code takes them: the active-reservation guard, the not-found check after
filtering, success. -/
inductive DeleteOutcome where
  | activeRefs : DeleteOutcome
  | notFound : DeleteOutcome
  | ok : DeleteOutcome
deriving DecidableEq, Repr

/-- ReservationSystem.create_hotel: raises ValueError for a non-positive
total_rooms before loading anything; otherwise appends a new hotel with a
fresh id (passed here as new_id) and trimmed name and city, and saves.
Result, state after the call, and whether a save happened. -/
def ReservationSystem.create_hotel (st : SysState) (name city : String)
    (total_rooms : Int) (new_id : String) :
    CreateOutcome Hotel × SysState × Bool :=
  if total_rooms ≤ 0 then
    (.raised "total_rooms must be > 0", st, false)
  else
    let new_hotel : Hotel := ⟨new_id, name.trim, city.trim, total_rooms⟩
    (.returned (some new_hotel),
     { st with hotels := st.hotels ++ [new_hotel] }, true)

/-- ReservationSystem._hotel_available_rooms: total_rooms minus the sum of
rooms over reservations whose hotel_id matches and whose status is the
exact string "active". -/
def ReservationSystem.hotel_available_rooms (hotel : Hotel)
    (reservations : List Reservation) : Int :=
  hotel.total_rooms -
    ((reservations.filter
        (fun r => r.hotel_id == hotel.hotel_id && r.status == "active")).map
      Reservation.rooms).sum

/-- ReservationSystem.create_reservation: logs and returns None for a
non-positive rooms before loading anything; then requires the hotel and the
customer to exist and rooms not to exceed the available rooms; on success
appends a fresh active reservation (id passed as new_id) and saves. -/
def ReservationSystem.create_reservation (st : SysState)
    (hotel_id customer_id : String) (rooms : Int) (new_id : String) :
    CreateOutcome Reservation × SysState × Bool :=
  if rooms ≤ 0 then
    (.returned none, st, false)
  else
    match st.hotels.find? (fun h => h.hotel_id == hotel_id) with
    | none => (.returned none, st, false)
    | some hotel =>
      match st.customers.find? (fun c => c.customer_id == customer_id) with
      | none => (.returned none, st, false)
      | some _ =>
        if rooms > ReservationSystem.hotel_available_rooms hotel
                     st.reservations then
          (.returned none, st, false)
        else
          (.returned (some ⟨new_id, hotel_id, customer_id, rooms, "active"⟩),
           { st with reservations := st.reservations ++
              [⟨new_id, hotel_id, customer_id, rooms, "active"⟩] }, true)

/-- ReservationSystem.delete_hotel: fails on any active reservation
referencing the id (checked first), then fails if filtering out the id
leaves the hotel list the same length; otherwise saves the filtered list. -/
def ReservationSystem.delete_hotel (st : SysState) (hotel_id : String) :
    DeleteOutcome × SysState × Bool :=
  if st.reservations.any
      (fun r => r.hotel_id == hotel_id && r.status == "active") then
    (.activeRefs, st, false)
  else
    if (st.hotels.filter (fun h => h.hotel_id != hotel_id)).length =
        st.hotels.length then
      (.notFound, st, false)
    else
      (.ok, { st with hotels :=
                st.hotels.filter (fun h => h.hotel_id != hotel_id) }, true)

/-- ReservationSystem.delete_customer: same shape as delete_hotel with the
customer collection and customer_id references. -/
def ReservationSystem.delete_customer (st : SysState) (customer_id : String) :
    DeleteOutcome × SysState × Bool :=
  if st.reservations.any
      (fun r => r.customer_id == customer_id && r.status == "active") then
    (.activeRefs, st, false)
  else
    if (st.customers.filter (fun c => c.customer_id != customer_id)).length =
        st.customers.length then
      (.notFound, st, false)
    else
      (.ok,
       { st with
         customers := st.customers.filter
           (fun c => c.customer_id != customer_id) },
       true)

/-- ReservationSystem.cancel_reservation: walks the reservations keeping a
found flag; a matching reservation already cancelled is kept as is (only
logged), a matching active one is replaced by a cancelled copy; if no id
matched the call returns False with no save, otherwise the updated list is
saved and the call returns True. -/
def ReservationSystem.cancel_reservation (st : SysState)
    (reservation_id : String) : Bool × SysState × Bool :=
  if st.reservations.any (fun r => r.reservation_id == reservation_id) then
    (true,
     { st with reservations := st.reservations.map (fun r =>
         if r.reservation_id == reservation_id then
           if r.status == "cancelled" then r
           else { r with status := "cancelled" }
         else r) }, true)
  else
    (false, st, false)

/-- Filtering with a predicate that some member fails strictly shrinks the
list. -/
theorem length_filter_lt_of_mem {α : Type} {l : List α} {p : α → Bool}
    {x : α} (hx : x ∈ l) (hpx : p x = false) :
    (l.filter p).length < l.length := by
  induction l with
  | nil => cases hx
  | cons a t ih =>
    rcases List.mem_cons.mp hx with rfl | hmem
    · rw [List.filter_cons, hpx]
      exact Nat.lt_succ_of_le (List.length_filter_le p t)
    · rw [List.filter_cons]
      cases hpa : p a
      · simpa using Nat.lt_succ_of_lt (ih hmem)
      · simpa using Nat.succ_lt_succ (ih hmem)

/-- filterMap keeps the length when the function succeeds on every
element. -/
theorem length_filterMap_of_all_isSome {α β : Type} {f : α → Option β}
    {l : List α} (h : ∀ x ∈ l, (f x).isSome = true) :
    (l.filterMap f).length = l.length := by
  induction l with
  | nil => rfl
  | cons a t ih =>
    obtain ⟨b, hb⟩ := Option.isSome_iff_exists.mp (h a (List.mem_cons_self a t))
    rw [List.filterMap_cons, hb]
    simpa using ih (fun x hx => h x (List.mem_cons_of_mem a hx))

/-- Round trip of one hotel through to_dict and from_dict. -/
theorem hotel_fromDict_toDict (h : Hotel) :
    Hotel.fromDict h.toDict = some h := by
  simp [Hotel.toDict, Hotel.fromDict, List.lookup, pyStr, pyInt]

/-- Round trip of one customer through to_dict and from_dict. -/
theorem customer_fromDict_toDict (c : Customer) :
    Customer.fromDict c.toDict = some c := by
  simp [Customer.toDict, Customer.fromDict, List.lookup, pyStr]

/-- Round trip of one reservation through to_dict and from_dict. -/
theorem reservation_fromDict_toDict (r : Reservation) :
    Reservation.fromDict r.toDict = some r := by
  simp [Reservation.toDict, Reservation.fromDict, List.lookup, pyStr, pyInt]

/-- Claim C5: the available-rooms computation equals total_rooms minus the
sum of the rooms of exactly the reservations whose hotel_id matches the
hotel and whose status is "active"; in particular it equals total_rooms
when there are no reservations. -/
theorem c5_available_rooms (h : Hotel) (rs : List Reservation) :
    ReservationSystem.hotel_available_rooms h rs =
      h.total_rooms -
        ((rs.filter (fun r =>
            decide (r.hotel_id = h.hotel_id ∧ r.status = "active"))).map
          Reservation.rooms).sum ∧
    ReservationSystem.hotel_available_rooms h [] = h.total_rooms := by
  constructor
  · unfold ReservationSystem.hotel_available_rooms
    have hfilter : rs.filter
        (fun r => r.hotel_id == h.hotel_id && r.status == "active") =
        rs.filter (fun r =>
          decide (r.hotel_id = h.hotel_id ∧ r.status = "active")) := by
      apply List.filter_congr
      intro r _
      rw [Bool.eq_iff_iff]
      simp
    rw [hfilter]
  · simp [ReservationSystem.hotel_available_rooms]

/-- Claim C6: for an absent backing file, unparsable content, or content
whose top level is not a JSON array, the raw load and all three entity
loads return the empty list; the load functions are total, so no error
reaches the caller. -/
theorem c6_bad_backing_empty :
    DataStore.load_raw .absent = [] ∧
    DataStore.load_raw .invalidJson = [] ∧
    DataStore.load_raw .nonList = [] ∧
    DataStore.load_hotels .absent = [] ∧
    DataStore.load_hotels .invalidJson = [] ∧
    DataStore.load_hotels .nonList = [] ∧
    DataStore.load_customers .absent = [] ∧
    DataStore.load_customers .invalidJson = [] ∧
    DataStore.load_customers .nonList = [] ∧
    DataStore.load_reservations .absent = [] ∧
    DataStore.load_reservations .invalidJson = [] ∧
    DataStore.load_reservations .nonList = [] :=
  ⟨rfl, rfl, rfl, rfl, rfl, rfl, rfl, rfl, rfl, rfl, rfl, rfl⟩

/-- Claim C2 counterexample: cancelling the already-cancelled reservation
r1 returns True, the success indicator, not a failure indicator as the
claim states (the state is unchanged and a save still happens). -/
theorem c2_counterexample :
    ReservationSystem.cancel_reservation
        ⟨[], [], [⟨"r1", "h1", "c1", 2, "cancelled"⟩]⟩ "r1" =
      (true, ⟨[], [], [⟨"r1", "h1", "c1", 2, "cancelled"⟩]⟩, true) := by
  decide

/-- Claim C2 (amended): cancelling a reservation whose every record with
that identifier is already cancelled returns True, leaves the stored state
unchanged, and still performs a save of the reservations collection. -/
theorem c2_cancel_already_cancelled (st : SysState) (rid : String)
    (hfound : ∃ r ∈ st.reservations, r.reservation_id = rid)
    (hcanc : ∀ r ∈ st.reservations,
      r.reservation_id = rid → r.status = "cancelled") :
    ReservationSystem.cancel_reservation st rid = (true, st, true) := by
  unfold ReservationSystem.cancel_reservation
  obtain ⟨r0, hr0, hid0⟩ := hfound
  rw [if_pos]
  · have hmap : st.reservations.map (fun r =>
        if r.reservation_id == rid then
          if r.status == "cancelled" then r
          else { r with status := "cancelled" }
        else r) = st.reservations := by
      conv_rhs => rw [← List.map_id st.reservations]
      apply List.map_congr_left
      intro r hr
      by_cases hm : r.reservation_id = rid
      · simp [hm, hcanc r hr hm]
      · simp [hm]
    rw [hmap]
  · simp only [List.any_eq_true]
    exact ⟨r0, hr0, by simp [hid0]⟩

/-- Claim C2 witness: a concrete state with an active and a cancelled
reservation where cancelling the cancelled one returns True, keeps the
state, and still saves. -/
theorem c2_witness :
    ReservationSystem.cancel_reservation
        ⟨[], [], [⟨"ra", "h1", "c1", 1, "active"⟩,
                  ⟨"rb", "h1", "c1", 2, "cancelled"⟩]⟩ "rb" =
      (true, ⟨[], [], [⟨"ra", "h1", "c1", 1, "active"⟩,
                       ⟨"rb", "h1", "c1", 2, "cancelled"⟩]⟩, true) :=
  c2_cancel_already_cancelled
    ⟨[], [], [⟨"ra", "h1", "c1", 1, "active"⟩,
              ⟨"rb", "h1", "c1", 2, "cancelled"⟩]⟩ "rb"
    (by decide) (by decide)

/-- Claim C3 counterexample: create_reservation with rooms = 0 does not
raise an exception; it returns the absent result None (with no load or
write), so only hotel creation surfaces a non-positive room count as a
hard failure. -/
theorem c3_counterexample :
    ReservationSystem.create_reservation ⟨[], [], []⟩ "h1" "c1" 0 "r1" =
      (.returned none, ⟨[], [], []⟩, false) ∧
    (ReservationSystem.create_reservation
        ⟨[], [], []⟩ "h1" "c1" 0 "r1").1.isRaised = false :=
  ⟨rfl, rfl⟩

/-- Claim C3 (amended): for a non-positive room count, create_hotel raises
ValueError and create_reservation returns the absent result None; both do
so immediately, for every state, with the state untouched and no save. -/
theorem c3_nonpositive_rooms (st : SysState)
    (name city hid cid nid rid : String) (rooms : Int) (h : rooms ≤ 0) :
    ReservationSystem.create_hotel st name city rooms nid =
      (.raised "total_rooms must be > 0", st, false) ∧
    (ReservationSystem.create_hotel st name city rooms nid).1.isRaised =
      true ∧
    ReservationSystem.create_reservation st hid cid rooms rid =
      (.returned none, st, false) := by
  unfold ReservationSystem.create_hotel ReservationSystem.create_reservation
  rw [if_pos h, if_pos h]
  exact ⟨rfl, rfl, rfl⟩

/-- Claim C3 witness: the amended behaviour at rooms = 0 on the empty
state. -/
theorem c3_witness :
    ReservationSystem.create_hotel ⟨[], [], []⟩ "Azure" "MTY" 0 "h9" =
      (.raised "total_rooms must be > 0", ⟨[], [], []⟩, false) ∧
    (ReservationSystem.create_hotel
        ⟨[], [], []⟩ "Azure" "MTY" 0 "h9").1.isRaised = true ∧
    ReservationSystem.create_reservation ⟨[], [], []⟩ "h1" "c1" 0 "r9" =
      (.returned none, ⟨[], [], []⟩, false) :=
  c3_nonpositive_rooms ⟨[], [], []⟩ "Azure" "MTY" "h1" "c1" "h9" "r9" 0
    (by decide)

/-- Claim C10: for an identifier that no stored hotel (or customer)
carries but that an active reservation references, the delete returns the
active-references failure exit, showing the active guard is evaluated
before the existence check, and performs no write. -/
theorem c10_dangling_reference_guard (st : SysState) (hid cid : String) :
    ((∀ h ∈ st.hotels, h.hotel_id ≠ hid) →
     (∃ r ∈ st.reservations, r.hotel_id = hid ∧ r.status = "active") →
     ReservationSystem.delete_hotel st hid = (.activeRefs, st, false)) ∧
    ((∀ c ∈ st.customers, c.customer_id ≠ cid) →
     (∃ r ∈ st.reservations, r.customer_id = cid ∧ r.status = "active") →
     ReservationSystem.delete_customer st cid = (.activeRefs, st, false)) := by
  constructor
  · intro _ hex
    obtain ⟨r, hr, hhid, hact⟩ := hex
    unfold ReservationSystem.delete_hotel
    rw [if_pos]
    simp only [List.any_eq_true]
    exact ⟨r, hr, by simp [hhid, hact]⟩
  · intro _ hex
    obtain ⟨r, hr, hcid, hact⟩ := hex
    unfold ReservationSystem.delete_customer
    rw [if_pos]
    simp only [List.any_eq_true]
    exact ⟨r, hr, by simp [hcid, hact]⟩

/-- Claim C10 witness: a dangling hotel id and a dangling customer id, each
referenced by an active reservation, make the deletes fail on the active
guard with no write. -/
theorem c10_witness :
    ReservationSystem.delete_hotel
        ⟨[], [⟨"c1", "n", "e"⟩], [⟨"r1", "ghost", "c1", 1, "active"⟩]⟩
        "ghost" =
      (.activeRefs,
       ⟨[], [⟨"c1", "n", "e"⟩], [⟨"r1", "ghost", "c1", 1, "active"⟩]⟩,
       false) ∧
    ReservationSystem.delete_customer
        ⟨[⟨"h1", "n", "c", 5⟩], [], [⟨"r1", "h1", "phantom", 1, "active"⟩]⟩
        "phantom" =
      (.activeRefs,
       ⟨[⟨"h1", "n", "c", 5⟩], [], [⟨"r1", "h1", "phantom", 1, "active"⟩]⟩,
       false) :=
  ⟨(c10_dangling_reference_guard
      ⟨[], [⟨"c1", "n", "e"⟩], [⟨"r1", "ghost", "c1", 1, "active"⟩]⟩
      "ghost" "x").1 (by decide) (by decide),
   (c10_dangling_reference_guard
      ⟨[⟨"h1", "n", "c", 5⟩], [], [⟨"r1", "h1", "phantom", 1, "active"⟩]⟩
      "x" "phantom").2 (by decide) (by decide)⟩

/-- Claim C1 counterexample: a fully booked hotel has 0 available rooms,
and create_reservation with rooms equal to that available count fails (it
returns None on the non-positive guard), so requesting exactly the
available rooms does not always succeed. -/
theorem c1_counterexample :
    ReservationSystem.hotel_available_rooms ⟨"h1", "Azure", "MTY", 1⟩
      [⟨"r1", "h1", "c1", 1, "active"⟩] = 0 ∧
    ReservationSystem.create_reservation
        ⟨[⟨"h1", "Azure", "MTY", 1⟩], [⟨"c1", "n", "e"⟩],
         [⟨"r1", "h1", "c1", 1, "active"⟩]⟩ "h1" "c1" 0 "r2" =
      (.returned none,
       ⟨[⟨"h1", "Azure", "MTY", 1⟩], [⟨"c1", "n", "e"⟩],
        [⟨"r1", "h1", "c1", 1, "active"⟩]⟩, false) := by
  constructor
  · decide
  · decide

/-- Claim C1 (amended): for a stored hotel and an existing customer,
requesting exactly the available rooms succeeds, appends the new active
reservation and saves, provided the available count is positive; and
requesting available + 1 always returns None and leaves the state
unchanged with no save. -/
theorem c1_create_at_capacity (st : SysState) (hid cid nid : String)
    (h : Hotel)
    (hh : st.hotels.find? (fun x => x.hotel_id == hid) = some h)
    (hc : (st.customers.find? (fun c => c.customer_id == cid)).isSome =
      true) :
    (0 < ReservationSystem.hotel_available_rooms h st.reservations →
      ReservationSystem.create_reservation st hid cid
          (ReservationSystem.hotel_available_rooms h st.reservations) nid =
        (.returned (some ⟨nid, hid, cid,
            ReservationSystem.hotel_available_rooms h st.reservations,
            "active"⟩),
         { st with reservations := st.reservations ++
            [⟨nid, hid, cid,
              ReservationSystem.hotel_available_rooms h st.reservations,
              "active"⟩] }, true)) ∧
    ReservationSystem.create_reservation st hid cid
        (ReservationSystem.hotel_available_rooms h st.reservations + 1)
        nid =
      (.returned none, st, false) := by
  obtain ⟨c, hc2⟩ := Option.isSome_iff_exists.mp hc
  constructor
  · intro hav
    simp only [ReservationSystem.create_reservation, hh, hc2]
    rw [if_neg (by omega), if_neg (lt_irrefl _)]
  · by_cases h0 :
      ReservationSystem.hotel_available_rooms h st.reservations + 1 ≤ 0
    · simp only [ReservationSystem.create_reservation]
      rw [if_pos h0]
    · simp only [ReservationSystem.create_reservation, hh, hc2]
      rw [if_neg h0, if_pos (by omega)]

/-- Claim C1 witness: hotel h1 with 5 rooms free, customer c1; reserving 5
rooms succeeds and persists the reservation, reserving 6 returns None with
no change and no save. -/
theorem c1_witness :
    0 < ReservationSystem.hotel_available_rooms ⟨"h1", "A", "M", 5⟩ [] ∧
    ReservationSystem.create_reservation
        ⟨[⟨"h1", "A", "M", 5⟩], [⟨"c1", "n", "e"⟩], []⟩ "h1" "c1" 5 "r9" =
      (.returned (some ⟨"r9", "h1", "c1", 5, "active"⟩),
       ⟨[⟨"h1", "A", "M", 5⟩], [⟨"c1", "n", "e"⟩],
        [⟨"r9", "h1", "c1", 5, "active"⟩]⟩, true) ∧
    ReservationSystem.create_reservation
        ⟨[⟨"h1", "A", "M", 5⟩], [⟨"c1", "n", "e"⟩], []⟩ "h1" "c1" 6 "r9" =
      (.returned none,
       ⟨[⟨"h1", "A", "M", 5⟩], [⟨"c1", "n", "e"⟩], []⟩, false) := by
  have h5 : ReservationSystem.hotel_available_rooms ⟨"h1", "A", "M", 5⟩
      ([] : List Reservation) = 5 := by decide
  have happ := c1_create_at_capacity
    ⟨[⟨"h1", "A", "M", 5⟩], [⟨"c1", "n", "e"⟩], []⟩ "h1" "c1" "r9"
    ⟨"h1", "A", "M", 5⟩ (by decide) (by decide)
  refine ⟨by decide, ?_, ?_⟩
  · have h1 := happ.1 (by decide)
    rw [h5] at h1
    exact h1
  · have h2 := happ.2
    rw [h5] at h2
    exact h2

/-- Claim C4: a hotel or customer referenced by an active reservation
cannot be deleted (failure exit, state kept, no write); one that exists
and is referenced only by cancelled reservations is deleted: exactly the
entities bearing that identifier are removed, the other two collections
are untouched, and the result is saved. -/
theorem c4_delete_guards (st : SysState) (hid cid : String) :
    ((∃ r ∈ st.reservations, r.hotel_id = hid ∧ r.status = "active") →
      ReservationSystem.delete_hotel st hid = (.activeRefs, st, false)) ∧
    ((∀ r ∈ st.reservations, r.hotel_id = hid → r.status = "cancelled") →
     (∃ h ∈ st.hotels, h.hotel_id = hid) →
      ReservationSystem.delete_hotel st hid =
        (.ok,
         { st with hotels := st.hotels.filter (fun h => h.hotel_id != hid) },
         true)) ∧
    ((∃ r ∈ st.reservations, r.customer_id = cid ∧ r.status = "active") →
      ReservationSystem.delete_customer st cid = (.activeRefs, st, false)) ∧
    ((∀ r ∈ st.reservations, r.customer_id = cid → r.status = "cancelled") →
     (∃ c ∈ st.customers, c.customer_id = cid) →
      ReservationSystem.delete_customer st cid =
        (.ok,
         { st with
           customers := st.customers.filter
             (fun c => c.customer_id != cid) },
         true)) := by
  refine ⟨?_, ?_, ?_, ?_⟩
  · intro hex
    obtain ⟨r, hr, hhid, hact⟩ := hex
    unfold ReservationSystem.delete_hotel
    rw [if_pos]
    simp only [List.any_eq_true]
    exact ⟨r, hr, by simp [hhid, hact]⟩
  · intro hcanc hex
    obtain ⟨h0, hh0, hid0⟩ := hex
    have hguard : st.reservations.any
        (fun r => r.hotel_id == hid && r.status == "active") = false := by
      rw [List.any_eq_false]
      intro r hr
      simp only [Bool.and_eq_true, beq_iff_eq, not_and]
      intro hrh
      rw [hcanc r hr hrh]
      decide
    have hlen : (st.hotels.filter
        (fun h => h.hotel_id != hid)).length ≠ st.hotels.length := by
      apply Nat.ne_of_lt
      apply length_filter_lt_of_mem hh0
      simp [hid0]
    unfold ReservationSystem.delete_hotel
    rw [if_neg (by simp [hguard]), if_neg hlen]
  · intro hex
    obtain ⟨r, hr, hcid, hact⟩ := hex
    unfold ReservationSystem.delete_customer
    rw [if_pos]
    simp only [List.any_eq_true]
    exact ⟨r, hr, by simp [hcid, hact]⟩
  · intro hcanc hex
    obtain ⟨c0, hc0, hcid0⟩ := hex
    have hguard : st.reservations.any
        (fun r => r.customer_id == cid && r.status == "active") = false := by
      rw [List.any_eq_false]
      intro r hr
      simp only [Bool.and_eq_true, beq_iff_eq, not_and]
      intro hrc
      rw [hcanc r hr hrc]
      decide
    have hlen : (st.customers.filter
        (fun c => c.customer_id != cid)).length ≠ st.customers.length := by
      apply Nat.ne_of_lt
      apply length_filter_lt_of_mem hc0
      simp [hcid0]
    unfold ReservationSystem.delete_customer
    rw [if_neg (by simp [hguard]), if_neg hlen]

/-- Claim C4 witness: with an active reservation on h1/c1 both deletes
fail and keep the state; with only a cancelled reservation both deletes
succeed and remove exactly the referenced entity. -/
theorem c4_witness :
    ReservationSystem.delete_hotel
        ⟨[⟨"h1", "A", "M", 5⟩], [⟨"c1", "n", "e"⟩],
         [⟨"r1", "h1", "c1", 1, "active"⟩]⟩ "h1" =
      (.activeRefs,
       ⟨[⟨"h1", "A", "M", 5⟩], [⟨"c1", "n", "e"⟩],
        [⟨"r1", "h1", "c1", 1, "active"⟩]⟩, false) ∧
    ReservationSystem.delete_hotel
        ⟨[⟨"h1", "A", "M", 5⟩], [⟨"c1", "n", "e"⟩],
         [⟨"r1", "h1", "c1", 1, "cancelled"⟩]⟩ "h1" =
      (.ok,
       ⟨[], [⟨"c1", "n", "e"⟩],
        [⟨"r1", "h1", "c1", 1, "cancelled"⟩]⟩, true) ∧
    ReservationSystem.delete_customer
        ⟨[⟨"h1", "A", "M", 5⟩], [⟨"c1", "n", "e"⟩],
         [⟨"r1", "h1", "c1", 1, "active"⟩]⟩ "c1" =
      (.activeRefs,
       ⟨[⟨"h1", "A", "M", 5⟩], [⟨"c1", "n", "e"⟩],
        [⟨"r1", "h1", "c1", 1, "active"⟩]⟩, false) ∧
    ReservationSystem.delete_customer
        ⟨[⟨"h1", "A", "M", 5⟩], [⟨"c1", "n", "e"⟩],
         [⟨"r1", "h1", "c1", 1, "cancelled"⟩]⟩ "c1" =
      (.ok,
       ⟨[⟨"h1", "A", "M", 5⟩], [],
        [⟨"r1", "h1", "c1", 1, "cancelled"⟩]⟩, true) :=
  ⟨(c4_delete_guards
      ⟨[⟨"h1", "A", "M", 5⟩], [⟨"c1", "n", "e"⟩],
       [⟨"r1", "h1", "c1", 1, "active"⟩]⟩ "h1" "x").1 (by decide),
   (c4_delete_guards
      ⟨[⟨"h1", "A", "M", 5⟩], [⟨"c1", "n", "e"⟩],
       [⟨"r1", "h1", "c1", 1, "cancelled"⟩]⟩ "h1" "x").2.1
     (by decide) (by decide),
   (c4_delete_guards
      ⟨[⟨"h1", "A", "M", 5⟩], [⟨"c1", "n", "e"⟩],
       [⟨"r1", "h1", "c1", 1, "active"⟩]⟩ "x" "c1").2.2.1 (by decide),
   (c4_delete_guards
      ⟨[⟨"h1", "A", "M", 5⟩], [⟨"c1", "n", "e"⟩],
       [⟨"r1", "h1", "c1", 1, "cancelled"⟩]⟩ "x" "c1").2.2.2
     (by decide) (by decide)⟩

/-- Claim C9: a reservation record whose status is any string is accepted
by from_dict unchanged; a reservation whose status is not exactly "active"
contributes nothing to the available-rooms sum; and a hotel or customer
whose reservations all have a non-"active" status can be deleted. -/
theorem c9_nonstandard_status (rid hid cid : String) (n : Int) (s : String)
    (h : Hotel) (r : Reservation) (rs : List Reservation) (st : SysState)
    (hid2 cid2 : String) :
    Reservation.fromDict
        [("reservation_id", .jstr rid), ("hotel_id", .jstr hid),
         ("customer_id", .jstr cid), ("rooms", .jint n),
         ("status", .jstr s)] = some ⟨rid, hid, cid, n, s⟩ ∧
    (r.status ≠ "active" →
      ReservationSystem.hotel_available_rooms h (r :: rs) =
        ReservationSystem.hotel_available_rooms h rs) ∧
    ((∀ x ∈ st.reservations, x.status ≠ "active") →
     (∃ hh ∈ st.hotels, hh.hotel_id = hid2) →
      (ReservationSystem.delete_hotel st hid2).1 = .ok) ∧
    ((∀ x ∈ st.reservations, x.status ≠ "active") →
     (∃ cc ∈ st.customers, cc.customer_id = cid2) →
      (ReservationSystem.delete_customer st cid2).1 = .ok) := by
  refine ⟨?_, ?_, ?_, ?_⟩
  · simp [Reservation.fromDict, List.lookup, pyStr, pyInt]
  · intro hs
    have hfalse : (r.hotel_id == h.hotel_id && r.status == "active") =
        false := by
      have : (r.status == "active") = false := by simp [hs]
      rw [this, Bool.and_false]
    unfold ReservationSystem.hotel_available_rooms
    rw [List.filter_cons, hfalse]
    simp
  · intro hall hex
    obtain ⟨h0, hh0, hid0⟩ := hex
    have hguard : st.reservations.any
        (fun x => x.hotel_id == hid2 && x.status == "active") = false := by
      rw [List.any_eq_false]
      intro x hx
      simp [hall x hx]
    have hlen : (st.hotels.filter
        (fun x => x.hotel_id != hid2)).length ≠ st.hotels.length := by
      apply Nat.ne_of_lt
      apply length_filter_lt_of_mem hh0
      simp [hid0]
    unfold ReservationSystem.delete_hotel
    rw [if_neg (by simp [hguard]), if_neg hlen]
  · intro hall hex
    obtain ⟨c0, hc0, hcid0⟩ := hex
    have hguard : st.reservations.any
        (fun x => x.customer_id == cid2 && x.status == "active") = false := by
      rw [List.any_eq_false]
      intro x hx
      simp [hall x hx]
    have hlen : (st.customers.filter
        (fun x => x.customer_id != cid2)).length ≠ st.customers.length := by
      apply Nat.ne_of_lt
      apply length_filter_lt_of_mem hc0
      simp [hcid0]
    unfold ReservationSystem.delete_customer
    rw [if_neg (by simp [hguard]), if_neg hlen]

/-- Claim C9 witness: statuses "Active" and "done" are accepted verbatim by
from_dict, do not reduce the available rooms of h1, and do not block
deleting h1 or c1. -/
theorem c9_witness :
    Reservation.fromDict
        [("reservation_id", .jstr "r1"), ("hotel_id", .jstr "h1"),
         ("customer_id", .jstr "c1"), ("rooms", .jint 3),
         ("status", .jstr "Active")] =
      some ⟨"r1", "h1", "c1", 3, "Active"⟩ ∧
    ReservationSystem.hotel_available_rooms ⟨"h1", "A", "M", 5⟩
        (⟨"r1", "h1", "c1", 3, "Active"⟩ ::
          [⟨"r2", "h1", "c1", 2, "done"⟩]) =
      ReservationSystem.hotel_available_rooms ⟨"h1", "A", "M", 5⟩
        [⟨"r2", "h1", "c1", 2, "done"⟩] ∧
    (ReservationSystem.delete_hotel
        ⟨[⟨"h1", "A", "M", 5⟩], [⟨"c1", "n", "e"⟩],
         [⟨"r1", "h1", "c1", 3, "Active"⟩,
          ⟨"r2", "h1", "c1", 2, "done"⟩]⟩ "h1").1 = .ok ∧
    (ReservationSystem.delete_customer
        ⟨[⟨"h1", "A", "M", 5⟩], [⟨"c1", "n", "e"⟩],
         [⟨"r1", "h1", "c1", 3, "Active"⟩,
          ⟨"r2", "h1", "c1", 2, "done"⟩]⟩ "c1").1 = .ok :=
  ⟨(c9_nonstandard_status "r1" "h1" "c1" 3 "Active" ⟨"h1", "A", "M", 5⟩
      ⟨"r1", "h1", "c1", 3, "Active"⟩ [] ⟨[], [], []⟩ "x" "x").1,
   (c9_nonstandard_status "r1" "h1" "c1" 3 "Active" ⟨"h1", "A", "M", 5⟩
      ⟨"r1", "h1", "c1", 3, "Active"⟩ [⟨"r2", "h1", "c1", 2, "done"⟩]
      ⟨[], [], []⟩ "x" "x").2.1 (by decide),
   (c9_nonstandard_status "r1" "h1" "c1" 3 "Active" ⟨"h1", "A", "M", 5⟩
      ⟨"r1", "h1", "c1", 3, "Active"⟩ []
      ⟨[⟨"h1", "A", "M", 5⟩], [⟨"c1", "n", "e"⟩],
       [⟨"r1", "h1", "c1", 3, "Active"⟩, ⟨"r2", "h1", "c1", 2, "done"⟩]⟩
      "h1" "c1").2.2.1 (by decide) (by decide),
   (c9_nonstandard_status "r1" "h1" "c1" 3 "Active" ⟨"h1", "A", "M", 5⟩
      ⟨"r1", "h1", "c1", 3, "Active"⟩ []
      ⟨[⟨"h1", "A", "M", 5⟩], [⟨"c1", "n", "e"⟩],
       [⟨"r1", "h1", "c1", 3, "Active"⟩, ⟨"r2", "h1", "c1", 2, "done"⟩]⟩
      "h1" "c1").2.2.2 (by decide) (by decide)⟩

/-- Claim C7: a malformed record is skipped individually: loading a list
with one bad record equals loading the records around it, and when the
other 9 of 10 records are valid, exactly 9 entities result, in their
original order. -/
theorem c7_per_record_skip (xs ys : List RawRecord) (bad : RawRecord)
    (hbad : Hotel.fromDict bad = none)
    (hxs : ∀ r ∈ xs, (Hotel.fromDict r).isSome = true)
    (hys : ∀ r ∈ ys, (Hotel.fromDict r).isSome = true)
    (hlen : (xs ++ bad :: ys).length = 10) :
    DataStore.load_hotels (.list (xs ++ bad :: ys)) =
      DataStore.load_hotels (.list xs) ++ DataStore.load_hotels (.list ys) ∧
    (DataStore.load_hotels (.list (xs ++ bad :: ys))).length = 9 := by
  have hsplit : DataStore.load_hotels (.list (xs ++ bad :: ys)) =
      DataStore.load_hotels (.list xs) ++
        DataStore.load_hotels (.list ys) := by
    simp [DataStore.load_hotels, DataStore.load_raw, List.filterMap_append,
          List.filterMap_cons, hbad]
  refine ⟨hsplit, ?_⟩
  rw [hsplit, List.length_append]
  have e1 : DataStore.load_hotels (.list xs) =
      xs.filterMap Hotel.fromDict := rfl
  have e2 : DataStore.load_hotels (.list ys) =
      ys.filterMap Hotel.fromDict := rfl
  rw [e1, e2, length_filterMap_of_all_isSome hxs,
      length_filterMap_of_all_isSome hys]
  have hlen2 : xs.length + (ys.length + 1) = 10 := by
    simpa [List.length_append] using hlen
  omega

/-- Claim C7 witness: ten concrete hotel records, the fifth with a
non-numeric total_rooms, load as the nine valid hotels in order. -/
theorem c7_witness :
    DataStore.load_hotels (.list
      ([[("hotel_id", .jstr "h1"), ("name", .jstr "N"), ("city", .jstr "C"),
         ("total_rooms", .jint 1)],
        [("hotel_id", .jstr "h2"), ("name", .jstr "N"), ("city", .jstr "C"),
         ("total_rooms", .jint 2)],
        [("hotel_id", .jstr "h3"), ("name", .jstr "N"), ("city", .jstr "C"),
         ("total_rooms", .jint 3)],
        [("hotel_id", .jstr "h4"), ("name", .jstr "N"), ("city", .jstr "C"),
         ("total_rooms", .jint 4)]] ++
       [("hotel_id", .jstr "hX"), ("name", .jstr "N"), ("city", .jstr "C"),
        ("total_rooms", .jstr "five")] ::
       [[("hotel_id", .jstr "h5"), ("name", .jstr "N"), ("city", .jstr "C"),
         ("total_rooms", .jint 5)],
        [("hotel_id", .jstr "h6"), ("name", .jstr "N"), ("city", .jstr "C"),
         ("total_rooms", .jint 6)],
        [("hotel_id", .jstr "h7"), ("name", .jstr "N"), ("city", .jstr "C"),
         ("total_rooms", .jint 7)],
        [("hotel_id", .jstr "h8"), ("name", .jstr "N"), ("city", .jstr "C"),
         ("total_rooms", .jint 8)],
        [("hotel_id", .jstr "h9"), ("name", .jstr "N"), ("city", .jstr "C"),
         ("total_rooms", .jint 9)]])) =
      DataStore.load_hotels (.list
        [[("hotel_id", .jstr "h1"), ("name", .jstr "N"), ("city", .jstr "C"),
          ("total_rooms", .jint 1)],
         [("hotel_id", .jstr "h2"), ("name", .jstr "N"), ("city", .jstr "C"),
          ("total_rooms", .jint 2)],
         [("hotel_id", .jstr "h3"), ("name", .jstr "N"), ("city", .jstr "C"),
          ("total_rooms", .jint 3)],
         [("hotel_id", .jstr "h4"), ("name", .jstr "N"), ("city", .jstr "C"),
          ("total_rooms", .jint 4)]]) ++
      DataStore.load_hotels (.list
        [[("hotel_id", .jstr "h5"), ("name", .jstr "N"), ("city", .jstr "C"),
          ("total_rooms", .jint 5)],
         [("hotel_id", .jstr "h6"), ("name", .jstr "N"), ("city", .jstr "C"),
          ("total_rooms", .jint 6)],
         [("hotel_id", .jstr "h7"), ("name", .jstr "N"), ("city", .jstr "C"),
          ("total_rooms", .jint 7)],
         [("hotel_id", .jstr "h8"), ("name", .jstr "N"), ("city", .jstr "C"),
          ("total_rooms", .jint 8)],
         [("hotel_id", .jstr "h9"), ("name", .jstr "N"), ("city", .jstr "C"),
          ("total_rooms", .jint 9)]]) ∧
    (DataStore.load_hotels (.list
      ([[("hotel_id", .jstr "h1"), ("name", .jstr "N"), ("city", .jstr "C"),
         ("total_rooms", .jint 1)],
        [("hotel_id", .jstr "h2"), ("name", .jstr "N"), ("city", .jstr "C"),
         ("total_rooms", .jint 2)],
        [("hotel_id", .jstr "h3"), ("name", .jstr "N"), ("city", .jstr "C"),
         ("total_rooms", .jint 3)],
        [("hotel_id", .jstr "h4"), ("name", .jstr "N"), ("city", .jstr "C"),
         ("total_rooms", .jint 4)]] ++
       [("hotel_id", .jstr "hX"), ("name", .jstr "N"), ("city", .jstr "C"),
        ("total_rooms", .jstr "five")] ::
       [[("hotel_id", .jstr "h5"), ("name", .jstr "N"), ("city", .jstr "C"),
         ("total_rooms", .jint 5)],
        [("hotel_id", .jstr "h6"), ("name", .jstr "N"), ("city", .jstr "C"),
         ("total_rooms", .jint 6)],
        [("hotel_id", .jstr "h7"), ("name", .jstr "N"), ("city", .jstr "C"),
         ("total_rooms", .jint 7)],
        [("hotel_id", .jstr "h8"), ("name", .jstr "N"), ("city", .jstr "C"),
         ("total_rooms", .jint 8)],
        [("hotel_id", .jstr "h9"), ("name", .jstr "N"), ("city", .jstr "C"),
         ("total_rooms", .jint 9)]]))).length = 9 :=
  c7_per_record_skip
    [[("hotel_id", .jstr "h1"), ("name", .jstr "N"), ("city", .jstr "C"),
      ("total_rooms", .jint 1)],
     [("hotel_id", .jstr "h2"), ("name", .jstr "N"), ("city", .jstr "C"),
      ("total_rooms", .jint 2)],
     [("hotel_id", .jstr "h3"), ("name", .jstr "N"), ("city", .jstr "C"),
      ("total_rooms", .jint 3)],
     [("hotel_id", .jstr "h4"), ("name", .jstr "N"), ("city", .jstr "C"),
      ("total_rooms", .jint 4)]]
    [[("hotel_id", .jstr "h5"), ("name", .jstr "N"), ("city", .jstr "C"),
      ("total_rooms", .jint 5)],
     [("hotel_id", .jstr "h6"), ("name", .jstr "N"), ("city", .jstr "C"),
      ("total_rooms", .jint 6)],
     [("hotel_id", .jstr "h7"), ("name", .jstr "N"), ("city", .jstr "C"),
      ("total_rooms", .jint 7)],
     [("hotel_id", .jstr "h8"), ("name", .jstr "N"), ("city", .jstr "C"),
      ("total_rooms", .jint 8)],
     [("hotel_id", .jstr "h9"), ("name", .jstr "N"), ("city", .jstr "C"),
      ("total_rooms", .jint 9)]]
    [("hotel_id", .jstr "hX"), ("name", .jstr "N"), ("city", .jstr "C"),
     ("total_rooms", .jstr "five")]
    (by decide) (by decide) (by decide) (by decide)

/-- Hotels survive a to_dict then from_dict pass elementwise. -/
theorem filterMap_toDict_hotels (hs : List Hotel) :
    (hs.map Hotel.toDict).filterMap Hotel.fromDict = hs := by
  induction hs with
  | nil => rfl
  | cons h t ih =>
    simp [List.filterMap_cons, hotel_fromDict_toDict, ih]

/-- Customers survive a to_dict then from_dict pass elementwise. -/
theorem filterMap_toDict_customers (cs : List Customer) :
    (cs.map Customer.toDict).filterMap Customer.fromDict = cs := by
  induction cs with
  | nil => rfl
  | cons c t ih =>
    simp [List.filterMap_cons, customer_fromDict_toDict, ih]

/-- Reservations survive a to_dict then from_dict pass elementwise. -/
theorem filterMap_toDict_reservations (rs : List Reservation) :
    (rs.map Reservation.toDict).filterMap Reservation.fromDict = rs := by
  induction rs with
  | nil => rfl
  | cons r t ih =>
    simp [List.filterMap_cons, reservation_fromDict_toDict, ih]

/-- Claim C8: for each of the three collections, when the backing content
is what save produced for a list of entities, loading it and saving the
loaded list yields byte-identical text (the serializer emits keys in the
fixed dataclass field order, so key ordering is deterministic). -/
theorem c8_save_load_fixed_point (hs : List Hotel) (cs : List Customer)
    (rs : List Reservation) :
    DataStore.save_hotels
        (DataStore.load_hotels (.list (hs.map Hotel.toDict))) =
      DataStore.save_hotels hs ∧
    DataStore.save_customers
        (DataStore.load_customers (.list (cs.map Customer.toDict))) =
      DataStore.save_customers cs ∧
    DataStore.save_reservations
        (DataStore.load_reservations
          (.list (rs.map Reservation.toDict))) =
      DataStore.save_reservations rs := by
  refine ⟨?_, ?_, ?_⟩
  · rw [DataStore.save_hotels, DataStore.load_hotels, DataStore.load_raw,
        filterMap_toDict_hotels, DataStore.save_hotels]
  · rw [DataStore.save_customers, DataStore.load_customers,
        DataStore.load_raw, filterMap_toDict_customers,
        DataStore.save_customers]
  · rw [DataStore.save_reservations, DataStore.load_reservations,
        DataStore.load_raw, filterMap_toDict_reservations,
        DataStore.save_reservations]
